import Mathlib

/-!
Verification of the orchestration core of the Credit-card-recommendation
repository, shallowly embedded in Lean 4.

Modelling conventions, used throughout:
* Python floats become `ℚ` (all weights in the source are exact decimals).
* Python dicts that are used in insertion order become association lists
  `List (String × _)`; assignment `d[k] = v` becomes `insert_assoc`.
* `str(obj)` of a card dict / dataclass becomes an explicit rendering
  function (`card_str`, `rec_str`).  Numeric fields are rendered as exact
  rationals rather than Python float reprs; every substring ever searched
  in such a rendering by the source is alphabetic (`"miles"`,
  `"signup_bonus"`, ...), so the numeric rendering is irrelevant to every
  containment test in scope.
* `time.time()` timestamps and execution-time fields are dropped: they are
  wall-clock values with no bearing on any claim.
* A raised-and-uncaught Python exception becomes `Except.error`.
-/

/-- The single-quote character, used when rendering Python reprs. -/
def q27 : String := "\x27"

/-- Is `needle` a prefix of `hay` (character lists)? -/
def is_prefix_chars : List Char → List Char → Bool
  | [], _ => true
  | _ :: _, [] => false
  | a :: as, b :: bs => a == b && is_prefix_chars as bs

/-- Is `needle` a contiguous substring of `hay` (character lists)?  Models
the Python `needle in hay` test on strings. -/
def is_infix_chars (needle : List Char) : List Char → Bool
  | [] => needle.isEmpty
  | b :: bs => is_prefix_chars needle (b :: bs) || is_infix_chars needle bs

/-- Python `needle in hay` on strings. -/
def str_contains (hay needle : String) : Bool :=
  is_infix_chars needle.toList hay.toList

/-- Rendering of a numeric value inside a Python repr.  Exact rational
rendering; see the module comment for why this is adequate. -/
def q_repr (q : ℚ) : String :=
  if q.den = 1 then toString q.num else toString q.num ++ "/" ++ toString q.den

/-- Python repr of a list of strings, e.g. `['a', 'b']`. -/
def py_str_list_repr (l : List String) : String :=
  "[" ++ String.intercalate ", " (l.map (fun s => q27 ++ s ++ q27)) ++ "]"

/-- One `'key': 'value'` item of a Python dict repr. -/
def py_kv_str (k v : String) : String :=
  q27 ++ k ++ q27 ++ ": " ++ q27 ++ v ++ q27

/-- One `'key': raw` item of a Python dict repr (non-string value). -/
def py_kv_raw (k raw : String) : String :=
  q27 ++ k ++ q27 ++ ": " ++ raw

/-- `src/models/state.py` — `Consent`. -/
structure Consent where
  personalization : Bool
  data_sharing : Bool
  credit_pull : String

/-- `src/models/state.py` — `RequestParsed`.  Constraint and spend-focus
maps are association lists from key to number. -/
structure RequestParsed where
  intent : String
  constraints : List (String × ℚ)
  goals : List String
  priority : List String
  spend_focus : List (String × ℚ)
  jurisdiction : String
  risk_tolerance : String
  must_have : List String
  nice_to_have : List String
  time_horizon : String

/-- A card record as returned by the catalog collaborator: the Python dict
with the fixed keys used throughout `src/nodes/card_managers.py`. -/
structure CardData where
  card_id : String
  card_name : String
  card_type : String
  issuer : String
  annual_fee : ℚ
  rewards_rate : String
  signup_bonus : String
  credit_score_required : String
  pros : List String
  cons : List String

/-- Python `str(card)` for a card dict: the dict repr, keys in insertion
order.  (Braces written via escapes.) -/
def card_str (c : CardData) : String :=
  "\x7b" ++ String.intercalate ", "
    [py_kv_str "card_id" c.card_id,
     py_kv_str "card_name" c.card_name,
     py_kv_str "card_type" c.card_type,
     py_kv_str "issuer" c.issuer,
     py_kv_raw "annual_fee" (q_repr c.annual_fee),
     py_kv_str "rewards_rate" c.rewards_rate,
     py_kv_str "signup_bonus" c.signup_bonus,
     py_kv_str "credit_score_required" c.credit_score_required,
     py_kv_raw "pros" (py_str_list_repr c.pros),
     py_kv_raw "cons" (py_str_list_repr c.cons)] ++ "\x7d"

/-- `BaseCardManager._calculate_match_score` (card_managers.py:138-162),
translated step by step: the running `score` accumulator, then `min(score, 1.0)`. -/
def calculate_match_score (card : CardData) (request : RequestParsed) : ℚ :=
  let s0 : ℚ := 0
  -- goal matching (40% of score); guarded by `if request.goals else 0.0`
  let s1 := s0 +
    (match request.goals with
     | [] => 0
     | _ :: _ =>
       ((request.goals.filter
           (fun g => str_contains (card_str card).toLower g.toLower)).length : ℚ)
         / (request.goals.length : ℚ) * (2/5))
  -- risk tolerance matching (30% of score): if/elif/elif chain
  let s2 :=
    if request.risk_tolerance = "conservative" ∧ card.annual_fee ≤ 50 then s1 + 3/10
    else if request.risk_tolerance = "standard" ∧ card.annual_fee ≤ 150 then s1 + 3/10
    else if request.risk_tolerance = "aggressive" then s1 + 3/10
    else s1
  -- time horizon matching (20% of score); `"signup_bonus" in str(card)`
  let s3 :=
    if request.time_horizon = "12m" ∧ str_contains (card_str card) "signup_bonus" = true
    then s2 + 1/5 else s2
  -- constraint matching (10% of score)
  let s4 := match request.constraints with | [] => s3 + 1/10 | _ :: _ => s3
  min s4 1

/-- `TravelManager._calculate_match_score` (card_managers.py:270-282). -/
def travel_calculate_match_score (card : CardData) (request : RequestParsed) : ℚ :=
  let base := calculate_match_score card request
  let card_text := (card_str card).toLower
  let b1 :=
    if str_contains card_text "miles" = true ∨ str_contains card_text "airline" = true
       ∨ str_contains card_text "travel" = true
    then base + 1/5 else base
  let b2 := if str_contains card_text "no foreign transaction fee" = true then b1 + 1/10 else b1
  min b2 1

/-- `CashbackManager._calculate_match_score` (card_managers.py:305-317). -/
def cashback_calculate_match_score (card : CardData) (request : RequestParsed) : ℚ :=
  let base := calculate_match_score card request
  let card_text := (card_str card).toLower
  let b1 := if str_contains card_text "cashback" = true then base + 1/5 else base
  let b2 := if str_contains card.rewards_rate "%" = true then b1 + 1/10 else b1
  min b2 1

/-- `StudentManager._calculate_match_score` (card_managers.py:361-373). -/
def student_calculate_match_score (card : CardData) (request : RequestParsed) : ℚ :=
  let base := calculate_match_score card request
  let card_text := (card_str card).toLower
  let b1 :=
    if str_contains card_text "student" = true ∨ str_contains card_text "first" = true
    then base + 3/10 else base
  let b2 := if card.annual_fee ≤ 0 then b1 + 1/5 else b1
  min b2 1

/-- Number of the request's goals whose lowercase form occurs in the
lowercased card text (the goal-overlap count of the score formula). -/
def goal_match_count (card : CardData) (request : RequestParsed) : ℕ :=
  (request.goals.filter
     (fun g => str_contains (card_str card).toLower g.toLower)).length

/-- The spec's wording of the base match-score formula (section 4.4,
step 3 of the spec): a flat weighted sum of the four terms, to be compared
with the source's sequential accumulation.  Division by zero in `ℚ` yields
0, which coincides with the source's guarded goal term. -/
def match_score_spec (card : CardData) (request : RequestParsed) : ℚ :=
  ((goal_match_count card request : ℚ) / (request.goals.length : ℚ)) * (2/5)
  + (if (request.risk_tolerance = "conservative" ∧ card.annual_fee ≤ 50)
        ∨ (request.risk_tolerance = "standard" ∧ card.annual_fee ≤ 150)
        ∨ request.risk_tolerance = "aggressive" then (3/10 : ℚ) else 0)
  + (if request.time_horizon = "12m" ∧ str_contains (card_str card) "signup_bonus" = true
     then (1/5 : ℚ) else 0)
  + (match request.constraints with | [] => (1/10 : ℚ) | _ :: _ => 0)

/-- The spec's wording of the travel handler's extra bonus terms. -/
def travel_bonus_spec (card : CardData) : ℚ :=
  (if str_contains (card_str card).toLower "miles" = true
      ∨ str_contains (card_str card).toLower "airline" = true
      ∨ str_contains (card_str card).toLower "travel" = true then (1/5 : ℚ) else 0)
  + (if str_contains (card_str card).toLower "no foreign transaction fee" = true
     then (1/10 : ℚ) else 0)

/-- `src/nodes/card_managers.py` — dataclass `CardRecommendation`. -/
structure CardRecommendation where
  card_id : String
  card_name : String
  card_type : String
  issuer : String
  annual_fee : ℚ
  rewards_rate : String
  signup_bonus : String
  credit_score_required : String
  pros : List String
  cons : List String
  match_score : ℚ
  reasoning : String

/-- Python `str(rec)` for the `CardRecommendation` dataclass repr. -/
def rec_str (r : CardRecommendation) : String :=
  "CardRecommendation(" ++ String.intercalate ", "
    ["card_id=" ++ q27 ++ r.card_id ++ q27,
     "card_name=" ++ q27 ++ r.card_name ++ q27,
     "card_type=" ++ q27 ++ r.card_type ++ q27,
     "issuer=" ++ q27 ++ r.issuer ++ q27,
     "annual_fee=" ++ q_repr r.annual_fee,
     "rewards_rate=" ++ q27 ++ r.rewards_rate ++ q27,
     "signup_bonus=" ++ q27 ++ r.signup_bonus ++ q27,
     "credit_score_required=" ++ q27 ++ r.credit_score_required ++ q27,
     "pros=" ++ py_str_list_repr r.pros,
     "cons=" ++ py_str_list_repr r.cons,
     "match_score=" ++ q_repr r.match_score,
     "reasoning=" ++ q27 ++ r.reasoning ++ q27] ++ ")"

/-- `BaseCardManager._generate_reasoning` (card_managers.py:164-189). -/
def generate_reasoning (card : CardData) (request : RequestParsed) (match_score : ℚ) : String :=
  let tier :=
    if (8/10 : ℚ) < match_score then "Excellent match for your goals"
    else if (6/10 : ℚ) < match_score then "Good match for your preferences"
    else if (4/10 : ℚ) < match_score then "Moderate match, consider alternatives"
    else "Basic match, may not be optimal"
  let goal_matches := request.goals.filter
    (fun g => str_contains (card_str card).toLower g.toLower)
  let goal_part : List String :=
    match request.goals with
    | [] => []
    | _ :: _ =>
      match goal_matches with
      | [] => []
      | _ :: _ => ["Supports your goals: " ++ String.intercalate ", " goal_matches]
  let fee_part :=
    if card.annual_fee ≤ 50 then "Low annual fee"
    else if card.annual_fee ≤ 150 then "Moderate annual fee"
    else "Premium card with higher annual fee"
  String.intercalate ". " ([tier] ++ goal_part ++ [fee_part])

/-- Building one `CardRecommendation` from a card dict, as in
`BaseCardManager.rank_cards` (card_managers.py:112-132); the scoring
function is the manager-specific `_calculate_match_score` override. -/
def to_recommendation (score_fn : CardData → RequestParsed → ℚ)
    (request : RequestParsed) (c : CardData) : CardRecommendation :=
  { card_id := c.card_id
    card_name := c.card_name
    card_type := c.card_type
    issuer := c.issuer
    annual_fee := c.annual_fee
    rewards_rate := c.rewards_rate
    signup_bonus := c.signup_bonus
    credit_score_required := c.credit_score_required
    pros := c.pros
    cons := c.cons
    match_score := score_fn c request
    reasoning := generate_reasoning c request (score_fn c request) }

/-- Stable descending insertion: the new element goes after every element
of at-least-equal key.  `list.sort(key=..., reverse=True)` in Python is a
stable descending sort; on every input it returns exactly the list the
insertion sort below returns. -/
def insert_desc {α : Type} (key : α → ℚ) (x : α) : List α → List α
  | [] => [x]
  | y :: ys => if key y < key x then x :: y :: ys else y :: insert_desc key x ys

/-- Stable descending sort by a rational key (model of Python
`list.sort(key=..., reverse=True)`). -/
def sort_desc {α : Type} (key : α → ℚ) (l : List α) : List α :=
  l.foldl (fun acc x => insert_desc key x acc) []

/-- `BaseCardManager.rank_cards` (card_managers.py:108-136): build one
recommendation per card in catalog order, then stable-sort descending by
match score. -/
def rank_cards (score_fn : CardData → RequestParsed → ℚ)
    (cards : List CardData) (request : RequestParsed) : List CardRecommendation :=
  sort_desc (fun r => r.match_score) (cards.map (to_recommendation score_fn request))

/-- `src/nodes/card_managers.py` — dataclass `ManagerResult`
(execution-time field dropped; wall clock). -/
structure ManagerResult where
  manager_type : String
  recommendations : List CardRecommendation
  total_cards_found : ℕ
  best_match : Option CardRecommendation
  reasoning : String

/-- An entry of `GraphState.errors` (dict with node/error keys; the
`time.time()` timestamp is dropped). -/
structure ErrorRecord where
  node : String
  message : String

/-- Python dict assignment `d[k] = v` on an insertion-ordered dict
modelled as an association list: replace in place, else append. -/
def insert_assoc {β : Type} (l : List (String × β)) (k : String) (v : β) :
    List (String × β) :=
  match l with
  | [] => [(k, v)]
  | (k0, v0) :: t => if k0 = k then (k, v) :: t else (k0, v0) :: insert_assoc t k v

/-- Dict lookup `d.get(k)`. -/
def lookup_assoc {β : Type} (l : List (String × β)) (k : String) : Option β :=
  match l with
  | [] => none
  | (k0, v0) :: t => if k0 = k then some v0 else lookup_assoc t k

/-- `src/nodes/summary.py` — dataclass `FinalRecommendation`. -/
structure FinalRecommendation where
  card_id : String
  card_name : String
  card_type : String
  issuer : String
  annual_fee : ℚ
  rewards_rate : String
  signup_bonus : String
  credit_score_required : String
  pros : List String
  cons : List String
  overall_score : ℚ
  manager_scores : List (String × ℚ)
  reasoning : String
  best_for : List String

/-- `src/nodes/summary.py` — dataclass `SummaryResult`
(execution-time field dropped; wall clock). -/
structure SummaryResult where
  total_cards_analyzed : ℕ
  final_recommendations : List FinalRecommendation
  top_recommendation : Option FinalRecommendation
  summary_text : String
  confidence_score : ℚ

/-- `SummaryAgent.aggregate_manager_results` (summary.py:53-61): extend
the pool with each manager's recommendations, in map insertion order (the
`if manager_result.recommendations` truthiness guard kept as a match). -/
def aggregate_manager_results (manager_results : List (String × ManagerResult)) :
    List CardRecommendation :=
  manager_results.foldl
    (fun acc p =>
      match p.2.recommendations with
      | [] => acc
      | r :: rs => acc ++ (r :: rs))
    []

/-- `SummaryAgent.calculate_overall_score` (summary.py:63-82): start from
the card's own match score and add 0.1 for every recommendation entry in
any manager's list bearing the same card id, then cap at 1.0. -/
def calculate_overall_score (card : CardRecommendation)
    (manager_results : List (String × ManagerResult)) : ℚ :=
  let overall := manager_results.foldl
    (fun acc p =>
      p.2.recommendations.foldl
        (fun a r => if r.card_id = card.card_id then a + 1/10 else a) acc)
    card.match_score
  min overall 1

/-- `SummaryAgent.identify_best_features` (summary.py:84-124). -/
def identify_best_features (card : CardRecommendation) : List String :=
  let text := (rec_str card).toLower
  let type_feats : List String :=
    if card.card_type = "travel" then
      (if str_contains card.rewards_rate.toLower "miles" = true
       then ["Airline miles earning"] else [])
      ++ (if str_contains text "no foreign transaction fee" = true
          then ["International travel"] else [])
      ++ (if str_contains text "travel insurance" = true
          then ["Travel protection"] else [])
    else if card.card_type = "cashback" then
      (if str_contains card.rewards_rate "%" = true then ["Cashback rewards"] else [])
      ++ (if str_contains card.rewards_rate.toLower "online" = true
          then ["Online shopping"] else [])
      ++ (if str_contains card.rewards_rate.toLower "dining" = true
          then ["Dining rewards"] else [])
    else if card.card_type = "business" then
      ["Business expenses"]
      ++ (if str_contains text "employee" = true then ["Employee cards"] else [])
    else if card.card_type = "student" then
      ["Credit building"]
      ++ (if card.annual_fee = 0 then ["No annual fee"] else [])
    else []
  let fee_feats : List String :=
    if card.annual_fee = 0 then ["Cost-effective"]
    else if card.annual_fee ≤ 50 then ["Low cost"]
    else []
  let bonus_feats : List String :=
    if str_contains text "signup bonus" = true then ["Signup bonus"] else []
  type_feats ++ fee_feats ++ bonus_feats

/-- `SummaryAgent.generate_reasoning` (summary.py:126-147). -/
def generate_summary_reasoning (card : CardRecommendation) (overall_score : ℚ)
    (best_features : List String) : String :=
  let tier :=
    if (9/10 : ℚ) < overall_score then "Excellent overall match"
    else if (7/10 : ℚ) < overall_score then "Strong recommendation"
    else if (5/10 : ℚ) < overall_score then "Good option to consider"
    else "Basic match"
  let feat_part : List String :=
    match best_features with
    | [] => []
    | f :: fs => ["Best for: " ++ String.intercalate ", " (f :: fs)]
  let fee_part : List String :=
    if card.annual_fee = 0 then ["No annual fee makes it cost-effective"]
    else if card.annual_fee ≤ 50 then ["Low annual fee for good value"]
    else []
  String.intercalate ". " ([tier] ++ feat_part ++ fee_part)

/-- The per-manager score dict built for one card inside
`create_final_recommendations` (summary.py:169-173). -/
def manager_scores_for (card : CardRecommendation)
    (manager_results : List (String × ManagerResult)) : List (String × ℚ) :=
  manager_results.foldl
    (fun acc p =>
      p.2.recommendations.foldl
        (fun a r => if r.card_id = card.card_id then insert_assoc a p.1 r.match_score else a)
        acc)
    []

/-- The body of the per-card loop of
`SummaryAgent.create_final_recommendations` (summary.py:158-193). -/
def to_final (manager_results : List (String × ManagerResult))
    (card : CardRecommendation) : FinalRecommendation :=
  let overall_score := calculate_overall_score card manager_results
  let best_features := identify_best_features card
  { card_id := card.card_id
    card_name := card.card_name
    card_type := card.card_type
    issuer := card.issuer
    annual_fee := card.annual_fee
    rewards_rate := card.rewards_rate
    signup_bonus := card.signup_bonus
    credit_score_required := card.credit_score_required
    pros := card.pros
    cons := card.cons
    overall_score := overall_score
    manager_scores := manager_scores_for card manager_results
    reasoning := generate_summary_reasoning card overall_score best_features
    best_for := best_features }

/-- `SummaryAgent.create_final_recommendations` (summary.py:149-198): one
`FinalRecommendation` per pooled candidate, then stable descending sort by
overall score.  (The `request` argument of the source is threaded to
`identify_best_features`, which never reads it.) -/
def create_final_recommendations (all_cards : List CardRecommendation)
    (manager_results : List (String × ManagerResult)) :
    List FinalRecommendation :=
  sort_desc (fun fr => fr.overall_score) (all_cards.map (to_final manager_results))

/-- `SummaryAgent.generate_summary_text` (summary.py:200-225), line by
line (trophy and bullet glyphs as authored).  Number formatting is the
exact-rational rendering; see the module comment. -/
def generate_summary_text (final_recommendations : List FinalRecommendation)
    (request : RequestParsed) : String :=
  match final_recommendations with
  | [] => "No suitable credit cards found based on your requirements."
  | top_card :: rest =>
    let parts :=
      ["Based on your goals of " ++ String.intercalate ", " request.goals
         ++ ", I\x27ve analyzed "
         ++ toString (final_recommendations.length) ++ " credit cards.",
       "Here\x27s my top recommendation:",
       "🏆 " ++ top_card.card_name ++ " by " ++ top_card.issuer,
       "   • " ++ top_card.rewards_rate,
       "   • Annual fee: S$" ++ q_repr top_card.annual_fee,
       "   • Signup bonus: " ++ top_card.signup_bonus,
       "   • Best for: " ++ String.intercalate ", " top_card.best_for,
       "   • Overall score: " ++ q_repr top_card.overall_score ++ "/1.0"]
    let parts :=
      match rest with
      | [] => parts
      | _ :: _ => parts ++ ["\nI also found " ++ toString rest.length
          ++ " other good options to consider."]
    String.intercalate "\n" parts

/-- `src/nodes/error_handler.py` — dataclass `ErrorHandlingResult`.  The
source builds such a value inside `execute`, but storing it on the state
always raises (see `error_handler_execute`), so it never escapes. -/
structure ErrorHandlingResult where
  errors_handled : ℕ
  user_friendly_message : String
  recovery_actions : List String
  can_continue : Bool
  fallback_recommendations : List CardRecommendation

/-- `src/models/state.py` — `GraphState`, restricted to the fields the
orchestration reads or writes (telemetry events and the policy/catalog
metadata dicts carry timestamps and are never read by any stage in
scope).  `GraphState` is a strict pydantic `BaseModel`: it declares NO
`error_handling`, `online_search_results` or `policy_validation` fields,
so attempts by the support stages to set those attributes raise
`ValueError` (see the three `..._execute` models below), and no such
field exists here. -/
structure GraphState where
  session_id : String
  user_query : String
  locale : String
  consent : Consent
  request : Option RequestParsed
  fanout_plan : Option (List String)
  manager_results : List (String × ManagerResult)
  final_recommendations : Option SummaryResult
  errors : List ErrorRecord
  current_node : Option String
  completed_nodes : List String
  next_nodes : List String

/-- `str(AttributeError)` raised by `request.goals` on a missing request. -/
def attribute_error_msg : String :=
  q27 ++ "NoneType" ++ q27 ++ " object has no attribute " ++ q27 ++ "goals" ++ q27

/-- `str(ValueError)` raised by pydantic when a stage assigns an
undeclared attribute on the strict `GraphState` model. -/
def no_field_error (field_name : String) : String :=
  "\x22GraphState\x22 object has no field \x22" ++ field_name ++ "\x22"

/-- `SummaryAgent.execute` (summary.py:227-312).  Branches in source
order: no manager results, no pooled cards, missing parsed request (the
`request.goals` access in `generate_summary_text` raises and the `except`
arm leaves `final_recommendations` untouched), and the normal path. -/
def summary_execute (state : GraphState) : GraphState :=
  let state := { state with
    current_node := some "summary",
    completed_nodes := state.completed_nodes ++ ["summary"] }
  match state.manager_results with
  | [] =>
    { state with
      final_recommendations := some
        { total_cards_analyzed := 0
          final_recommendations := []
          top_recommendation := none
          summary_text := "No card manager results available for summarization."
          confidence_score := 0 }
      next_nodes := [] }
  | m :: ms =>
    match aggregate_manager_results (m :: ms) with
    | [] =>
      { state with
        final_recommendations := some
          { total_cards_analyzed := 0
            final_recommendations := []
            top_recommendation := none
            summary_text := "No credit card recommendations found from managers."
            confidence_score := 0 }
        next_nodes := [] }
    | c :: cs =>
      match state.request with
      | none =>
        { state with
          errors := state.errors ++ [{ node := "summary", message := attribute_error_msg }]
          next_nodes := [] }
      | some request =>
        let all_cards := c :: cs
        let finals := create_final_recommendations all_cards state.manager_results
        let confidence :=
          match finals with
          | [] => (0 : ℚ)
          | _ :: _ =>
            let top_scores := (finals.take 3).map (fun fr => fr.overall_score)
            top_scores.sum / (top_scores.length : ℚ)
        { state with
          final_recommendations := some
            { total_cards_analyzed := all_cards.length
              final_recommendations := finals
              top_recommendation := finals.head?
              summary_text := generate_summary_text finals request
              confidence_score := confidence }
          next_nodes := [] }

/-- Mock catalog card `travel_001` (mock_tools.py:230-241). -/
def travel_001 : CardData :=
  { card_id := "travel_001"
    card_name := "Singapore Airlines KrisFlyer Credit Card"
    card_type := "travel"
    issuer := "DBS Bank"
    annual_fee := 963/5
    rewards_rate := "1.2 miles per S$1"
    signup_bonus := "15,000 KrisFlyer miles"
    credit_score_required := "excellent"
    pros := ["High miles earning", "No foreign transaction fees", "Travel insurance"]
    cons := ["High annual fee", "Limited cashback options"] }

/-- Mock catalog card `travel_002` (mock_tools.py:242-253). -/
def travel_002 : CardData :=
  { card_id := "travel_002"
    card_name := "Citi PremierMiles Card"
    card_type := "travel"
    issuer := "Citibank"
    annual_fee := 963/5
    rewards_rate := "1.2 miles per S$1"
    signup_bonus := "10,000 miles"
    credit_score_required := "good"
    pros := ["Flexible miles", "Good signup bonus", "Travel benefits"]
    cons := ["Annual fee", "Limited category bonuses"] }

/-- Mock catalog card `cashback_001` (mock_tools.py:258-270). -/
def cashback_001 : CardData :=
  { card_id := "cashback_001"
    card_name := "DBS Live Fresh Card"
    card_type := "cashback"
    issuer := "DBS Bank"
    annual_fee := 0
    rewards_rate := "5% cashback on online spending"
    signup_bonus := "S$100 cashback"
    credit_score_required := "good"
    pros := ["No annual fee", "High online cashback", "Easy to use"]
    cons := ["Limited offline benefits", "Category restrictions"] }

/-- Mock catalog card `cashback_002` (mock_tools.py:271-283). -/
def cashback_002 : CardData :=
  { card_id := "cashback_002"
    card_name := "OCBC 365 Credit Card"
    card_type := "cashback"
    issuer := "OCBC Bank"
    annual_fee := 0
    rewards_rate := "6% cashback on dining"
    signup_bonus := "S$80 cashback"
    credit_score_required := "good"
    pros := ["No annual fee", "High dining cashback", "Weekend bonuses"]
    cons := ["Complex bonus structure", "Minimum spending requirements"] }

/-- Mock catalog card `business_001` (mock_tools.py:287-299). -/
def business_001 : CardData :=
  { card_id := "business_001"
    card_name := "UOB Business Card"
    card_type := "business"
    issuer := "UOB Bank"
    annual_fee := 963/10
    rewards_rate := "1% cashback on all spending"
    signup_bonus := "S$200 cashback"
    credit_score_required := "good"
    pros := ["Business expense tracking", "Employee cards", "Corporate benefits"]
    cons := ["Annual fee", "Limited rewards", "Business verification required"] }

/-- Mock catalog card `student_001` (mock_tools.py:304-316). -/
def student_001 : CardData :=
  { card_id := "student_001"
    card_name := "POSB Everyday Card"
    card_type := "student"
    issuer := "DBS Bank"
    annual_fee := 0
    rewards_rate := "0.3% cashback on all spending"
    signup_bonus := "S$20 cashback"
    credit_score_required := "fair"
    pros := ["No annual fee", "Easy approval", "Credit building"]
    cons := ["Low rewards rate", "Limited benefits", "Low credit limit"] }

/-- Mock catalog card `general_001` (mock_tools.py:320-332). -/
def general_001 : CardData :=
  { card_id := "general_001"
    card_name := "Standard Rewards Card"
    card_type := "rewards"
    issuer := "Generic Bank"
    annual_fee := 963/20
    rewards_rate := "1% cashback on all spending"
    signup_bonus := "S$50 cashback"
    credit_score_required := "good"
    pros := ["Simple rewards", "Moderate annual fee", "Widely accepted"]
    cons := ["Basic benefits", "No category bonuses", "Limited perks"] }

/-- `MockCatalogTool.search_cards` (mock_tools.py:218-341): category lists
selected by goal keywords, a general fallback when nothing matched, a risk
band fee filter, then at most five cards. -/
def search_cards (goals : List String) (risk_tolerance : String) : List CardData :=
  let cards :=
    (if ["miles", "travel", "airline"].any (fun g => goals.contains g)
     then [travel_001, travel_002] else [])
    ++ (if ["cashback", "rewards"].any (fun g => goals.contains g)
        then [cashback_001, cashback_002] else [])
    ++ (if ["business", "corporate"].any (fun g => goals.contains g)
        then [business_001] else [])
    ++ (if ["student", "building_credit"].any (fun g => goals.contains g)
        then [student_001] else [])
  let cards := match cards with | [] => [general_001] | c :: cs => c :: cs
  let cards :=
    if risk_tolerance = "conservative" then cards.filter (fun c => c.annual_fee ≤ 50)
    else if risk_tolerance = "standard" then cards.filter (fun c => c.annual_fee ≤ 200)
    else cards
  cards.take 5

/-- The `ManagerResult` a successful manager run stores under its own key
(card_managers.py:222-229). -/
def manager_result_of (manager_type : String)
    (score_fn : CardData → RequestParsed → ℚ) (r : RequestParsed) : ManagerResult :=
  let raw_cards := search_cards r.goals r.risk_tolerance
  let top_recommendations := (rank_cards score_fn raw_cards r).take 3
  { manager_type := manager_type
    recommendations := top_recommendations
    total_cards_found := raw_cards.length
    best_match := top_recommendations.head?
    reasoning := "Found " ++ toString raw_cards.length
      ++ " cards, ranked by relevance to your goals" }

/-- The five manager node names registered in the graph. -/
def manager_names : List String :=
  ["travel_manager", "cashback_manager", "business_manager", "student_manager",
   "general_manager"]

/-- `BaseCardManager.execute` (card_managers.py:191-246), specialized by
`manager_type` and the subclass's score function.  Node progress is
recorded inside the `try` before anything can raise.  The only raising
step reachable in the model is the analyze step's access to
`state.request` when no parsed request exists (`AttributeError` on
`request.goals`); the analyze and search steps themselves catch their
collaborator errors internally and fall back.  The `except` arm appends an
error record tagged with the manager name and routes onward to the
summary stage without writing a result-map entry. -/
def manager_execute (manager_type : String)
    (score_fn : CardData → RequestParsed → ℚ) (state : GraphState) : GraphState :=
  let state := { state with
    current_node := some manager_type,
    completed_nodes := state.completed_nodes ++ [manager_type] }
  match state.request with
  | none =>
    { state with
      errors := state.errors ++ [{ node := manager_type, message := attribute_error_msg }]
      next_nodes := ["summary"] }
  | some request =>
    { state with
      manager_results := insert_assoc state.manager_results manager_type
        (manager_result_of manager_type score_fn request)
      next_nodes := ["summary"] }

/-- `_determine_manager_categories` (credit_card_graph.py:145-168): the
fixed goal-group table, in source order, with the general fallback. -/
def determine_manager_categories (request : RequestParsed) : List String :=
  let goals := request.goals
  let manager_categories :=
    (if ["miles", "travel", "airline", "hotel"].any (fun g => goals.contains g)
     then ["travel_manager"] else [])
    ++ (if ["cashback", "cash", "rewards", "money"].any (fun g => goals.contains g)
        then ["cashback_manager"] else [])
    ++ (if ["business", "corporate", "expense", "employee"].any (fun g => goals.contains g)
        then ["business_manager"] else [])
    ++ (if ["student", "building_credit", "first", "college"].any (fun g => goals.contains g)
        then ["student_manager"] else [])
  match manager_categories with
  | [] => ["general_manager"]
  | c :: cs => c :: cs

/-- `router_node` (credit_card_graph.py:99-140). -/
def router_node (state : GraphState) : GraphState :=
  let state := { state with
    current_node := some "router",
    completed_nodes := state.completed_nodes ++ ["router"] }
  match state.request with
  | none =>
    { state with
      errors := state.errors ++ [{ node := "router", message := "No parsed request available" }]
      next_nodes := ["error_handler"] }
  | some request =>
    let manager_categories := determine_manager_categories request
    { state with
      fanout_plan := some manager_categories
      next_nodes :=
        match manager_categories with
        | [] => ["general_manager"]
        | c :: cs => c :: cs }

/-- `_should_continue_to_router` (credit_card_graph.py:171-179).  The
LangGraph `END` sentinel is the string below. -/
def should_continue_to_router (state : GraphState) : String :=
  match state.errors with
  | _ :: _ => "error_handler"
  | [] =>
    match state.request with
    | some _ => "router"
    | none => "__end__"

/-- `_should_continue_to_managers` (credit_card_graph.py:182-191): with
errors route to the error handler; otherwise return only the FIRST entry
of the fan-out plan (`state.fanout_plan[0]`); an absent or empty plan
falls through to the general manager. -/
def should_continue_to_managers (state : GraphState) : String :=
  match state.errors with
  | _ :: _ => "error_handler"
  | [] =>
    match state.fanout_plan with
    | some (p :: _) => p
    | some [] => "general_manager"
    | none => "general_manager"

/-- `ErrorHandlerNode.generate_fallback_recommendations`
(error_handler.py:43-58). -/
def generate_fallback_recommendations (_request : RequestParsed) :
    List CardRecommendation :=
  [{ card_id := "fallback_001"
     card_name := "Standard Rewards Card"
     card_type := "rewards"
     issuer := "Major Bank"
     annual_fee := 49
     rewards_rate := "1% cashback on all purchases"
     signup_bonus := "$100 cashback"
     credit_score_required := "good"
     pros := ["Simple rewards", "Moderate annual fee"]
     cons := ["Basic benefits", "No category bonuses"]
     match_score := 3/5
     reasoning := "Fallback recommendation" }]

/-- `ErrorHandlerNode.execute` (error_handler.py:64-120).  The `try` arm
records node progress and builds an `ErrorHandlingResult` (message,
recovery actions, fallbacks — all pure), but then executes
`state.error_handling = \x7b\x7d` (line 97): `GraphState` is a strict
pydantic model with no such field, so the assignment raises `ValueError`
and the built result is discarded.  The `except` arm appends a critical
error record and sets `next_nodes = []`; the run still reaches the
summary stage via the static error_handler→summary edge of the graph. -/
def error_handler_execute (state : GraphState) : GraphState :=
  let state := { state with
    current_node := some "error_handler",
    completed_nodes := state.completed_nodes ++ ["error_handler"] }
  { state with
    errors := state.errors ++
      [{ node := "error_handler",
         message := "Error handler failed: " ++ no_field_error "error_handling" }]
    next_nodes := [] }

/-- `OnlineSearchAgent.execute` (support_agents.py:170-235): the `try`
arm records node progress and performs the simulated searches, but then
executes `state.online_search_results = \x7b\x7d` (line 213), which raises
`ValueError` (undeclared pydantic field); the `except` arm appends the
error record and routes to policy validation. -/
def online_search_execute (state : GraphState) : GraphState :=
  let state := { state with
    current_node := some "online_search",
    completed_nodes := state.completed_nodes ++ ["online_search"] }
  { state with
    errors := state.errors ++
      [{ node := "online_search", message := no_field_error "online_search_results" }]
    next_nodes := ["policy_validation"] }

/-- `PolicyValidationAgent.execute` (support_agents.py:314-369): the
`try` arm records node progress and, with a request present, runs the
mock compliance validation; on BOTH branches it then assigns
`state.policy_validation` (lines 332-338 or 351-355), which raises
`ValueError` (undeclared pydantic field) BEFORE the consent-warning loop,
so no consent warning is ever appended; the `except` arm appends the
single error record and routes to summary. -/
def policy_validation_execute (state : GraphState) : GraphState :=
  let state := { state with
    current_node := some "policy_validation",
    completed_nodes := state.completed_nodes ++ ["policy_validation"] }
  { state with
    errors := state.errors ++
      [{ node := "policy_validation", message := no_field_error "policy_validation" }]
    next_nodes := ["summary"] }

/-- `extractor_node` (extractor.py:39-93).  An empty `user_query` raises
`ValueError` which the `except` arm records and RE-RAISES (`raise` on line
93), so the node ends exceptionally (`Except.error`).  On non-empty input
the extraction helpers never raise: `_extract_structured_data` catches
collaborator failures and falls back to keyword parsing, and
`_validate_request` catches validation failures and substitutes a minimal
request; their composite is abstracted as the `extract_validate`
parameter. -/
def extractor_node (extract_validate : String → Consent → String → RequestParsed)
    (state : GraphState) : Except GraphState GraphState :=
  let state := { state with current_node := some "extractor" }
  if state.user_query = "" then
    Except.error
      { state with
        errors := state.errors ++ [{ node := "extractor", message := "No user query provided" }]
        next_nodes := ["error_handler"] }
  else
    Except.ok
      { state with
        request := some (extract_validate state.user_query state.consent state.locale)
        completed_nodes := state.completed_nodes ++ ["extractor"]
        next_nodes := ["router"] }

/-- Dispatch from a conditional-edge target name to the card-manager node
registered under that name in `create_credit_card_graph`
(credit_card_graph.py:33-37). -/
def manager_dispatch (name : String) (state : GraphState) : GraphState :=
  if name = "travel_manager" then
    manager_execute "travel_manager" travel_calculate_match_score state
  else if name = "cashback_manager" then
    manager_execute "cashback_manager" cashback_calculate_match_score state
  else if name = "business_manager" then
    manager_execute "business_manager" calculate_match_score state
  else if name = "student_manager" then
    manager_execute "student_manager" student_calculate_match_score state
  else
    manager_execute "general_manager" calculate_match_score state

/-- The stage graph from the router on (create_credit_card_graph,
credit_card_graph.py:57-89): the router's conditional edge picks ONE
target; a chosen manager flows through online search and policy validation
to summary; the error handler flows directly to summary. -/
def run_from_router (state : GraphState) : GraphState :=
  let s1 := router_node state
  let nxt := should_continue_to_managers s1
  if nxt = "error_handler" then
    summary_execute (error_handler_execute s1)
  else
    summary_execute (policy_validation_execute (online_search_execute (manager_dispatch nxt s1)))

/-- The whole pipeline from the entry point (create_credit_card_graph,
credit_card_graph.py:44-89): extractor, then its conditional edge.  A
node that raises aborts the graph invocation, so the extractor's
exceptional exit propagates as `Except.error`. -/
def run_pipeline (extract_validate : String → Consent → String → RequestParsed)
    (state : GraphState) : Except GraphState GraphState :=
  match extractor_node extract_validate state with
  | Except.error s => Except.error s
  | Except.ok s1 =>
    let nxt := should_continue_to_router s1
    if nxt = "error_handler" then
      Except.ok (summary_execute (error_handler_execute s1))
    else if nxt = "router" then
      Except.ok (run_from_router s1)
    else
      Except.ok s1

/-- `create_initial_state` (credit_card_graph.py:194-219).  The session id
is derived from `time.time()` in the source; a fixed placeholder stands in
for it. -/
def create_initial_state (user_query : String) : GraphState :=
  { session_id := "session_0"
    user_query := user_query
    locale := "en-SG"
    consent := { personalization := true, data_sharing := false, credit_pull := "none" }
    request := none
    fanout_plan := none
    manager_results := []
    final_recommendations := none
    errors := []
    current_node := none
    completed_nodes := []
    next_nodes := [] }

/-- The state component of a pipeline outcome (for an aborted run, the
state as mutated up to the raise). -/
def run_result_state : Except GraphState GraphState → GraphState
  | Except.error s => s
  | Except.ok s => s

/-- Did the pipeline run end with an uncaught exception? -/
def run_raised : Except GraphState GraphState → Bool
  | Except.error _ => true
  | Except.ok _ => false

/-- Non-increasing order with respect to a rational key. -/
def SortedDescBy {α : Type} (key : α → ℚ) (l : List α) : Prop :=
  List.Pairwise (fun a b => key b ≤ key a) l

/-- Fixture: a parsed request with goals miles and cashback (the spec's
scenario C input). -/
def req_mc : RequestParsed :=
  { intent := "recommend_card", constraints := [], goals := ["miles", "cashback"],
    priority := [], spend_focus := [], jurisdiction := "SG",
    risk_tolerance := "standard", must_have := [], nice_to_have := [],
    time_horizon := "12m" }

/-- Fixture: a recommendation for card id X with match score 1/2. -/
def rec_x : CardRecommendation :=
  { card_id := "X", card_name := "Card X", card_type := "travel", issuer := "B",
    annual_fee := 0, rewards_rate := "r", signup_bonus := "s",
    credit_score_required := "good", pros := [], cons := [],
    match_score := 1/2, reasoning := "" }

/-- Fixture: a travel-category result recommending card X. -/
def mr_x : ManagerResult :=
  { manager_type := "travel_manager", recommendations := [rec_x],
    total_cards_found := 1, best_match := some rec_x, reasoning := "" }

/-- Fixture: a cashback-category result also recommending card X (same
identifier from a different category). -/
def mr_x_cb : ManagerResult :=
  { manager_type := "cashback_manager",
    recommendations := [{ rec_x with card_type := "cashback", match_score := 2/5 }],
    total_cards_found := 1,
    best_match := some { rec_x with card_type := "cashback", match_score := 2/5 },
    reasoning := "" }

/-- Fixture: an initial state already carrying the scenario C request. -/
def s_mc : GraphState :=
  { create_initial_state "I want miles and cashback" with request := some req_mc }

/-- Fixture: a trivial stand-in for the extraction collaborator composite
(never consulted on the empty-input path). -/
def extract_stub : String → Consent → String → RequestParsed :=
  fun _ _ _ => req_mc

/-- Fixture: the SummaryResult the summary stage produces when no manager
results exist. -/
def empty_summary_result : SummaryResult :=
  { total_cards_analyzed := 0
    final_recommendations := []
    top_recommendation := none
    summary_text := "No card manager results available for summarization."
    confidence_score := 0 }

theorem mem_insert_desc {α : Type} (key : α → ℚ) (x a : α) (l : List α) :
    a ∈ insert_desc key x l ↔ a = x ∨ a ∈ l := by
  induction l with
  | nil => simp [insert_desc]
  | cons y ys ih =>
    simp only [insert_desc]
    split
    · simp
    · simp only [List.mem_cons, ih]
      tauto

theorem insert_desc_perm {α : Type} (key : α → ℚ) (x : α) (l : List α) :
    List.Perm (insert_desc key x l) (x :: l) := by
  induction l with
  | nil => simp [insert_desc]
  | cons y ys ih =>
    simp only [insert_desc]
    split
    · exact List.Perm.refl _
    · exact ((ih.cons y).trans (List.Perm.swap x y ys))

theorem sort_desc_go_perm {α : Type} (key : α → ℚ) (l acc : List α) :
    List.Perm (l.foldl (fun a x => insert_desc key x a) acc) (acc ++ l) := by
  induction l generalizing acc with
  | nil => simp
  | cons x xs ih =>
    simp only [List.foldl_cons]
    refine (ih (insert_desc key x acc)).trans ?_
    refine (List.Perm.append_right xs (insert_desc_perm key x acc)).trans ?_
    simpa using (@List.perm_middle _ x acc xs).symm

theorem sort_desc_perm {α : Type} (key : α → ℚ) (l : List α) :
    List.Perm (sort_desc key l) l := by
  simpa using sort_desc_go_perm key l []

theorem sort_desc_length {α : Type} (key : α → ℚ) (l : List α) :
    (sort_desc key l).length = l.length :=
  (sort_desc_perm key l).length_eq

theorem mem_sort_desc {α : Type} (key : α → ℚ) (a : α) (l : List α) :
    a ∈ sort_desc key l ↔ a ∈ l :=
  (sort_desc_perm key l).mem_iff

theorem insert_desc_sorted {α : Type} (key : α → ℚ) (x : α) {l : List α}
    (h : SortedDescBy key l) : SortedDescBy key (insert_desc key x l) := by
  induction l with
  | nil => simp [insert_desc, SortedDescBy]
  | cons y ys ih =>
    obtain ⟨hy, hys⟩ := List.pairwise_cons.mp h
    simp only [insert_desc]
    split
    next hlt =>
      refine List.pairwise_cons.mpr ⟨?_, h⟩
      intro z hz
      rcases List.mem_cons.mp hz with hz | hz
      · subst hz; exact le_of_lt hlt
      · exact le_trans (hy z hz) (le_of_lt hlt)
    next hlt =>
      refine List.pairwise_cons.mpr ⟨?_, ih hys⟩
      intro z hz
      rcases (mem_insert_desc key x z ys).mp hz with hz | hz
      · subst hz; exact le_of_not_lt hlt
      · exact hy z hz

theorem sort_desc_go_sorted {α : Type} (key : α → ℚ) (l : List α) (acc : List α)
    (h : SortedDescBy key acc) :
    SortedDescBy key (l.foldl (fun a x => insert_desc key x a) acc) := by
  induction l generalizing acc with
  | nil => simpa using h
  | cons x xs ih =>
    simp only [List.foldl_cons]
    exact ih (insert_desc key x acc) (insert_desc_sorted key x h)

theorem sort_desc_sorted {α : Type} (key : α → ℚ) (l : List α) :
    SortedDescBy key (sort_desc key l) :=
  sort_desc_go_sorted key l [] (by simp [SortedDescBy])

theorem insert_desc_filter_key {α : Type} (key : α → ℚ) (q : ℚ) (x : α) {l : List α}
    (h : SortedDescBy key l) :
    (insert_desc key x l).filter (fun a => decide (key a = q)) =
      l.filter (fun a => decide (key a = q)) ++ (if key x = q then [x] else []) := by
  induction l with
  | nil =>
    simp only [insert_desc, List.filter, List.filter_nil]
    split <;> simp_all
  | cons y ys ih =>
    obtain ⟨hy, hys⟩ := List.pairwise_cons.mp h
    simp only [insert_desc]
    split
    next hlt =>
      by_cases hq : key x = q
      · have hnone : (y :: ys).filter (fun a => decide (key a = q)) = [] := by
          refine List.filter_eq_nil_iff.mpr ?_
          intro z hz
          have hzle : key z ≤ key y := by
            rcases List.mem_cons.mp hz with hz | hz
            · subst hz; exact le_refl _
            · exact hy z hz
          have : key z < q := hq ▸ lt_of_le_of_lt hzle hlt
          simpa using ne_of_lt this
        simp [List.filter_cons, hq, hnone]
      · simp [List.filter_cons, hq]
    next hlt =>
      by_cases hqy : key y = q <;>
        simp [List.filter_cons, hqy, ih hys, List.append_assoc]

theorem sort_desc_go_filter {α : Type} (key : α → ℚ) (q : ℚ) (l acc : List α)
    (h : SortedDescBy key acc) :
    (l.foldl (fun a x => insert_desc key x a) acc).filter (fun a => decide (key a = q)) =
      acc.filter (fun a => decide (key a = q)) ++ l.filter (fun a => decide (key a = q)) := by
  induction l generalizing acc with
  | nil => simp
  | cons x xs ih =>
    simp only [List.foldl_cons]
    rw [ih (insert_desc key x acc) (insert_desc_sorted key x h)]
    rw [insert_desc_filter_key key q x h]
    by_cases hq : key x = q <;> simp [List.filter_cons, hq, List.append_assoc]

theorem sort_desc_filter_key {α : Type} (key : α → ℚ) (q : ℚ) (l : List α) :
    (sort_desc key l).filter (fun a => decide (key a = q)) =
      l.filter (fun a => decide (key a = q)) := by
  simpa using sort_desc_go_filter key q l [] (by simp [SortedDescBy])

theorem goal_term_nonneg (card : CardData) (r : RequestParsed) :
    0 ≤ ((goal_match_count card r : ℚ) / (r.goals.length : ℚ)) * (2/5) := by
  apply mul_nonneg
  · exact div_nonneg (Nat.cast_nonneg _) (Nat.cast_nonneg _)
  · norm_num

theorem goal_term_le (card : CardData) (r : RequestParsed) :
    ((goal_match_count card r : ℚ) / (r.goals.length : ℚ)) * (2/5) ≤ 2/5 := by
  rcases hg : r.goals with _ | ⟨g, gs⟩
  · simp [goal_match_count, hg]
    norm_num
  · have hlen : (0 : ℚ) < ((r.goals.length : ℚ)) := by
      rw [hg]
      exact_mod_cast Nat.succ_pos gs.length
    have hcnt : (goal_match_count card r : ℚ) ≤ (r.goals.length : ℚ) := by
      exact_mod_cast List.length_filter_le _ _
    have hdiv : (goal_match_count card r : ℚ) / (r.goals.length : ℚ) ≤ 1 :=
      (div_le_one hlen).mpr hcnt
    have hmul := mul_le_mul_of_nonneg_right hdiv (by norm_num : (0 : ℚ) ≤ 2/5)
    rw [hg] at hmul
    simpa using hmul

theorem match_score_spec_nonneg (card : CardData) (r : RequestParsed) :
    0 ≤ match_score_spec card r := by
  unfold match_score_spec
  have h1 := goal_term_nonneg card r
  have h2 : (0 : ℚ) ≤
      (if (r.risk_tolerance = "conservative" ∧ card.annual_fee ≤ 50)
          ∨ (r.risk_tolerance = "standard" ∧ card.annual_fee ≤ 150)
          ∨ r.risk_tolerance = "aggressive" then (3/10 : ℚ) else 0) := by
    split_ifs <;> norm_num
  have h3 : (0 : ℚ) ≤
      (if r.time_horizon = "12m" ∧ str_contains (card_str card) "signup_bonus" = true
       then (1/5 : ℚ) else 0) := by
    split_ifs <;> norm_num
  have h4 : (0 : ℚ) ≤ (match r.constraints with | [] => (1/10 : ℚ) | _ :: _ => 0) := by
    rcases r.constraints with _ | ⟨c, cs⟩ <;> norm_num
  linarith

theorem match_score_spec_le_one (card : CardData) (r : RequestParsed) :
    match_score_spec card r ≤ 1 := by
  unfold match_score_spec
  have h1 := goal_term_le card r
  have h2 :
      (if (r.risk_tolerance = "conservative" ∧ card.annual_fee ≤ 50)
          ∨ (r.risk_tolerance = "standard" ∧ card.annual_fee ≤ 150)
          ∨ r.risk_tolerance = "aggressive" then (3/10 : ℚ) else 0) ≤ 3/10 := by
    split_ifs <;> norm_num
  have h3 :
      (if r.time_horizon = "12m" ∧ str_contains (card_str card) "signup_bonus" = true
       then (1/5 : ℚ) else 0) ≤ 1/5 := by
    split_ifs <;> norm_num
  have h4 : (match r.constraints with | [] => (1/10 : ℚ) | _ :: _ => 0) ≤ 1/10 := by
    rcases r.constraints with _ | ⟨c, cs⟩ <;> norm_num
  linarith

theorem calculate_match_score_eq_min_spec (card : CardData) (r : RequestParsed) :
    calculate_match_score card r = min (match_score_spec card r) 1 := by
  unfold calculate_match_score match_score_spec goal_match_count
  rcases hc : r.constraints with _ | ⟨c, cs⟩ <;>
    rcases hg : r.goals with _ | ⟨g, gs⟩ <;>
      by_cases h1 : r.risk_tolerance = "conservative" ∧ card.annual_fee ≤ 50 <;>
        by_cases h2 : r.risk_tolerance = "standard" ∧ card.annual_fee ≤ 150 <;>
          by_cases h3 : r.risk_tolerance = "aggressive" <;>
            by_cases h4 : r.time_horizon = "12m"
                ∧ str_contains (card_str card) "signup_bonus" = true <;>
              simp [hc, hg, h1, h2, h3, h4]

theorem calculate_match_score_eq_spec (card : CardData) (r : RequestParsed) :
    calculate_match_score card r = match_score_spec card r := by
  rw [calculate_match_score_eq_min_spec]
  exact min_eq_left (match_score_spec_le_one card r)

theorem travel_score_eq_min_spec (card : CardData) (r : RequestParsed) :
    travel_calculate_match_score card r
      = min (match_score_spec card r + travel_bonus_spec card) 1 := by
  unfold travel_calculate_match_score travel_bonus_spec
  rw [calculate_match_score_eq_spec]
  by_cases hb1 : str_contains (card_str card).toLower "miles" = true
      ∨ str_contains (card_str card).toLower "airline" = true
      ∨ str_contains (card_str card).toLower "travel" = true <;>
    by_cases hb2 : str_contains (card_str card).toLower "no foreign transaction fee" = true <;>
      simp [hb1, hb2] <;> (congr 1 ; ring)

theorem foldl_count_add (cid : String) (recs : List CardRecommendation) (a : ℚ) :
    recs.foldl (fun a r => if r.card_id = cid then a + 1/10 else a) a
      = a + (1/10) * (((recs.filter (fun r => decide (r.card_id = cid))).length : ℕ) : ℚ) := by
  induction recs generalizing a with
  | nil => simp
  | cons r rs ih =>
    simp only [List.foldl_cons]
    by_cases h : r.card_id = cid
    · rw [if_pos h, ih]
      simp [List.filter_cons, h]
      push_cast
      ring
    · rw [if_neg h, ih]
      simp [List.filter_cons, h]

theorem overall_fold_eq (card : CardRecommendation)
    (mrs : List (String × ManagerResult)) (a : ℚ) :
    mrs.foldl
        (fun acc p =>
          p.2.recommendations.foldl
            (fun a r => if r.card_id = card.card_id then a + 1/10 else a) acc) a
      = a + (1/10) * (((mrs.map (fun p =>
          (p.2.recommendations.filter
            (fun r => decide (r.card_id = card.card_id))).length)).sum : ℕ) : ℚ) := by
  induction mrs generalizing a with
  | nil => simp
  | cons m ms ih =>
    simp only [List.foldl_cons, List.map_cons, List.sum_cons]
    rw [foldl_count_add, ih]
    push_cast
    ring

theorem aggregate_go_length (mrs : List (String × ManagerResult))
    (acc : List CardRecommendation) :
    (mrs.foldl
        (fun acc p =>
          match p.2.recommendations with
          | [] => acc
          | r :: rs => acc ++ (r :: rs)) acc).length
      = acc.length + (mrs.map (fun p => p.2.recommendations.length)).sum := by
  induction mrs generalizing acc with
  | nil => simp
  | cons m ms ih =>
    simp only [List.foldl_cons, List.map_cons, List.sum_cons]
    rw [ih]
    rcases hm : m.2.recommendations with _ | ⟨r, rs⟩ <;> simp [hm] <;> omega

theorem aggregate_length (mrs : List (String × ManagerResult)) :
    (aggregate_manager_results mrs).length
      = (mrs.map (fun p => p.2.recommendations.length)).sum := by
  unfold aggregate_manager_results
  simpa using aggregate_go_length mrs []

theorem create_final_length (pool : List CardRecommendation)
    (mrs : List (String × ManagerResult)) :
    (create_final_recommendations pool mrs).length = pool.length := by
  unfold create_final_recommendations
  rw [sort_desc_length]
  simp

theorem overall_score_le_one (card : CardRecommendation)
    (mrs : List (String × ManagerResult)) :
    calculate_overall_score card mrs ≤ 1 := by
  unfold calculate_overall_score
  exact min_le_right _ _

theorem create_final_all_le_one (pool : List CardRecommendation)
    (mrs : List (String × ManagerResult)) :
    (create_final_recommendations pool mrs).all
      (fun fr => decide (fr.overall_score ≤ 1)) = true := by
  rw [List.all_eq_true]
  intro fr hfr
  have hfr2 : fr ∈ sort_desc (fun fr => fr.overall_score) (pool.map (to_final mrs)) := by
    simpa [create_final_recommendations] using hfr
  have hmem : fr ∈ pool.map (to_final mrs) :=
    (mem_sort_desc (fun fr => fr.overall_score) fr (pool.map (to_final mrs))).mp hfr2
  obtain ⟨card, hcard, rfl⟩ := List.mem_map.mp hmem
  have h1 : (to_final mrs card).overall_score = calculate_overall_score card mrs := rfl
  simpa [h1] using overall_score_le_one card mrs

theorem lookup_insert_assoc {β : Type} (l : List (String × β)) (k : String) (v : β) :
    lookup_assoc (insert_assoc l k v) k = some v := by
  induction l with
  | nil => simp [insert_assoc, lookup_assoc]
  | cons p t ih =>
    obtain ⟨k0, v0⟩ := p
    simp only [insert_assoc]
    by_cases h : k0 = k
    · simp [h, lookup_assoc]
    · simp [h, lookup_assoc, ih]

theorem insert_assoc_keys {β : Type} (l : List (String × β)) (k : String) (v : β) :
    (insert_assoc l k v).map Prod.fst =
      (if k ∈ l.map Prod.fst then l.map Prod.fst else l.map Prod.fst ++ [k]) := by
  induction l with
  | nil => simp [insert_assoc]
  | cons p t ih =>
    obtain ⟨k0, v0⟩ := p
    simp only [insert_assoc]
    by_cases h : k0 = k
    · simp [h]
    · have hne : ¬ k = k0 := fun hh => h hh.symm
      by_cases hk : k ∈ t.map Prod.fst <;> simp [h, hne, hk, ih]

theorem manager_execute_completed (mt : String) (f : CardData → RequestParsed → ℚ)
    (s : GraphState) :
    (manager_execute mt f s).completed_nodes = s.completed_nodes ++ [mt] := by
  unfold manager_execute
  rcases hr : s.request with _ | r <;> simp [hr]

theorem manager_execute_next (mt : String) (f : CardData → RequestParsed → ℚ)
    (s : GraphState) :
    (manager_execute mt f s).next_nodes = ["summary"] := by
  unfold manager_execute
  rcases hr : s.request with _ | r <;> simp [hr]

theorem manager_execute_results_some (mt : String) (f : CardData → RequestParsed → ℚ)
    {s : GraphState} {r : RequestParsed} (hr : s.request = some r) :
    (manager_execute mt f s).manager_results =
      insert_assoc s.manager_results mt (manager_result_of mt f r) := by
  unfold manager_execute
  simp [hr]

theorem manager_execute_results_none (mt : String) (f : CardData → RequestParsed → ℚ)
    {s : GraphState} (hr : s.request = none) :
    (manager_execute mt f s).manager_results = s.manager_results := by
  unfold manager_execute
  simp [hr]

theorem manager_execute_request (mt : String) (f : CardData → RequestParsed → ℚ)
    (s : GraphState) : (manager_execute mt f s).request = s.request := by
  unfold manager_execute
  rcases hr : s.request with _ | r <;> simp [hr]

theorem manager_execute_errors_some (mt : String) (f : CardData → RequestParsed → ℚ)
    {s : GraphState} {r : RequestParsed} (hr : s.request = some r) :
    (manager_execute mt f s).errors = s.errors := by
  unfold manager_execute
  simp [hr]

theorem online_search_completed (s : GraphState) :
    (online_search_execute s).completed_nodes = s.completed_nodes ++ ["online_search"] := rfl

theorem online_search_results (s : GraphState) :
    (online_search_execute s).manager_results = s.manager_results := rfl

theorem online_search_request (s : GraphState) :
    (online_search_execute s).request = s.request := rfl

theorem policy_validation_completed (s : GraphState) :
    (policy_validation_execute s).completed_nodes
      = s.completed_nodes ++ ["policy_validation"] := rfl

theorem policy_validation_results (s : GraphState) :
    (policy_validation_execute s).manager_results = s.manager_results := rfl

theorem policy_validation_request (s : GraphState) :
    (policy_validation_execute s).request = s.request := rfl

theorem summary_execute_completed (s : GraphState) :
    (summary_execute s).completed_nodes = s.completed_nodes ++ ["summary"] := by
  unfold summary_execute
  rcases hm : s.manager_results with _ | ⟨m, ms⟩
  · simp [hm]
  · simp only [hm]
    rcases ha : aggregate_manager_results (m :: ms) with _ | ⟨c, cs⟩
    · simp [ha]
    · simp only [ha]
      rcases hr : s.request with _ | r <;> simp [hr]

theorem summary_execute_results (s : GraphState) :
    (summary_execute s).manager_results = s.manager_results := by
  unfold summary_execute
  rcases hm : s.manager_results with _ | ⟨m, ms⟩
  · simp [hm]
  · simp only [hm]
    rcases ha : aggregate_manager_results (m :: ms) with _ | ⟨c, cs⟩
    · simp [ha]
    · simp only [ha]
      rcases hr : s.request with _ | r <;> simp [hr]

theorem error_handler_completed (s : GraphState) :
    (error_handler_execute s).completed_nodes = s.completed_nodes ++ ["error_handler"] := rfl

theorem router_node_completed (s : GraphState) :
    (router_node s).completed_nodes = s.completed_nodes ++ ["router"] := by
  unfold router_node
  rcases hr : s.request with _ | r <;> simp [hr]

theorem router_node_request (s : GraphState) :
    (router_node s).request = s.request := by
  unfold router_node
  rcases hr : s.request with _ | r <;> simp [hr]

theorem router_node_results (s : GraphState) :
    (router_node s).manager_results = s.manager_results := by
  unfold router_node
  rcases hr : s.request with _ | r <;> simp [hr]

theorem router_node_errors_some (s : GraphState) {r : RequestParsed}
    (hr : s.request = some r) : (router_node s).errors = s.errors := by
  unfold router_node
  simp [hr]

theorem router_node_fanout_some (s : GraphState) {r : RequestParsed}
    (hr : s.request = some r) :
    (router_node s).fanout_plan = some (determine_manager_categories r) := by
  unfold router_node
  simp [hr]

theorem determine_ne_nil (r : RequestParsed) : determine_manager_categories r ≠ [] := by
  simp only [determine_manager_categories]
  split <;> simp_all

theorem determine_head_mem (r : RequestParsed) :
    (determine_manager_categories r).headD "general_manager" ∈ manager_names := by
  simp only [determine_manager_categories]
  split
  next heq => simp [manager_names]
  next c cs heq =>
    simp only [List.headD]
    revert heq
    split_ifs <;> (intro heq ; simp_all [manager_names])

theorem should_continue_eq {s : GraphState} {p : String} {rest : List String}
    (h1 : s.errors = []) (h2 : s.fanout_plan = some (p :: rest)) :
    should_continue_to_managers s = p := by
  unfold should_continue_to_managers
  simp [h1, h2]

theorem manager_dispatch_completed {name : String} (h : name ∈ manager_names)
    (s : GraphState) :
    (manager_dispatch name s).completed_nodes = s.completed_nodes ++ [name] := by
  fin_cases h <;> simp [manager_dispatch, manager_execute_completed]

theorem manager_dispatch_results_some {name : String} (h : name ∈ manager_names)
    {s : GraphState} {r : RequestParsed} (hr : s.request = some r) :
    (manager_dispatch name s).manager_results.map Prod.fst =
      (if name ∈ s.manager_results.map Prod.fst then s.manager_results.map Prod.fst
       else s.manager_results.map Prod.fst ++ [name]) := by
  fin_cases h <;>
    simp [manager_dispatch, manager_execute_results_some _ _ hr, insert_assoc_keys]

theorem run_from_router_effects {s : GraphState} {r : RequestParsed}
    (h1 : s.errors = []) (h2 : s.request = some r) :
    should_continue_to_managers (router_node s)
        = (determine_manager_categories r).headD "general_manager" ∧
    (run_from_router s).completed_nodes =
      s.completed_nodes ++ ["router", (determine_manager_categories r).headD "general_manager",
        "online_search", "policy_validation", "summary"] ∧
    (run_from_router s).manager_results.map Prod.fst =
      (if (determine_manager_categories r).headD "general_manager"
            ∈ s.manager_results.map Prod.fst
       then s.manager_results.map Prod.fst
       else s.manager_results.map Prod.fst
         ++ [(determine_manager_categories r).headD "general_manager"]) := by
  obtain ⟨p, rest, hp⟩ : ∃ p rest, determine_manager_categories r = p :: rest := by
    rcases h : determine_manager_categories r with _ | ⟨p, rest⟩
    · exact absurd h (determine_ne_nil r)
    · exact ⟨p, rest, rfl⟩
  have hchosen : (determine_manager_categories r).headD "general_manager" = p := by
    simp [hp]
  have hpmem : p ∈ manager_names := by
    have := determine_head_mem r
    rwa [hchosen] at this
  have hs1err : (router_node s).errors = [] := by
    rw [router_node_errors_some s h2, h1]
  have hs1fan : (router_node s).fanout_plan = some (p :: rest) := by
    rw [router_node_fanout_some s h2, hp]
  have hnext : should_continue_to_managers (router_node s) = p :=
    should_continue_eq hs1err hs1fan
  have hpne : ¬ (p = "error_handler") := by
    intro heq
    rw [heq] at hpmem
    simp [manager_names] at hpmem
  have hrun : run_from_router s =
      summary_execute (policy_validation_execute
        (online_search_execute (manager_dispatch p (router_node s)))) := by
    simp only [run_from_router]
    rw [hnext, if_neg hpne]
  have hreq1 : (router_node s).request = some r := by
    rw [router_node_request, h2]
  refine ⟨hchosen ▸ hnext, ?_, ?_⟩
  · rw [hrun, summary_execute_completed, policy_validation_completed,
      online_search_completed, manager_dispatch_completed hpmem,
      router_node_completed, hchosen]
    simp [List.append_assoc]
  · rw [hrun, summary_execute_results, policy_validation_results,
      online_search_results, manager_dispatch_results_some hpmem hreq1,
      router_node_results, hchosen]

/-- C1 counterexample: a candidate recommended by exactly one category (no
additional category recommends it) gets aggregate score `match + 0.1`,
not its own match score as the claim requires: at match score 1/2 the
aggregation stage computes 3/5. -/
theorem c1_counterexample :
    calculate_overall_score rec_x [("travel_manager", mr_x)] = 3/5 ∧
    rec_x.match_score = 1/2 ∧ ¬ ((3 : ℚ)/5 = 1/2) := by
  with_unfolding_all decide

/-- C1 amended: the aggregate (overall) score equals the candidate's own
match score plus 0.1 for EVERY recommendation entry bearing the same card
identifier across ALL category result lists — including the entry in the
category that produced the candidate — capped at 1.0. -/
theorem c1_aggregate_score (card : CardRecommendation)
    (mrs : List (String × ManagerResult)) :
    calculate_overall_score card mrs =
      min (card.match_score + (1/10) *
        (((mrs.map (fun p => (p.2.recommendations.filter
            (fun r2 => decide (r2.card_id = card.card_id))).length)).sum : ℕ) : ℚ)) 1 := by
  unfold calculate_overall_score
  rw [overall_fold_eq]

/-- C2 counterexample: two categories both recommending card id X yield
TWO final entries with the same identifier — duplicates are not merged
into a single aggregate entry. -/
theorem c2_counterexample :
    (aggregate_manager_results [("travel_manager", mr_x), ("cashback_manager", mr_x_cb)]).length = 2 ∧
    (create_final_recommendations
        (aggregate_manager_results [("travel_manager", mr_x), ("cashback_manager", mr_x_cb)])
        [("travel_manager", mr_x), ("cashback_manager", mr_x_cb)]).map (fun fr => fr.card_id)
      = ["X", "X"] := by
  with_unfolding_all decide

/-- C2 amended: the aggregation pool size equals the sum of the
recommendation-list lengths over all category results; duplicates are NOT
merged — the final recommendation list has exactly one entry per pooled
candidate occurrence — and every final entry's aggregate score is at most
1.0. -/
theorem c2_pool_and_merging (mrs : List (String × ManagerResult)) :
    (aggregate_manager_results mrs).length
        = (mrs.map (fun p => p.2.recommendations.length)).sum ∧
    (create_final_recommendations (aggregate_manager_results mrs) mrs).length
        = (aggregate_manager_results mrs).length ∧
    (create_final_recommendations (aggregate_manager_results mrs) mrs).all
        (fun fr => decide (fr.overall_score ≤ 1)) = true :=
  ⟨aggregate_length mrs,
   create_final_length (aggregate_manager_results mrs) mrs,
   create_final_all_le_one (aggregate_manager_results mrs) mrs⟩

/-- C3 counterexample: with no parsed request the analyze step raises,
the handler's `except` arm records the error and continues — but writes
NO entry in the result map: the planned handler ran (it is in the
completed list) yet its key is absent. -/
theorem c3_counterexample :
    (manager_execute "travel_manager" travel_calculate_match_score
        (create_initial_state "hello")).manager_results.map Prod.fst = [] ∧
    (manager_execute "travel_manager" travel_calculate_match_score
        (create_initial_state "hello")).errors.map (fun e => e.node) = ["travel_manager"] ∧
    (manager_execute "travel_manager" travel_calculate_match_score
        (create_initial_state "hello")).completed_nodes = ["travel_manager"] ∧
    (manager_execute "travel_manager" travel_calculate_match_score
        (create_initial_state "hello")).next_nodes = ["summary"] := by
  with_unfolding_all decide

/-- C3 amended: every exception inside the handler body is caught at the
`execute` boundary, recorded as a non-fatal error tagged with the manager
name, and the run continues to the summary stage; on the success path the
handler writes exactly its own key, but on the exception path NO
CategoryResult is written — the result map is left unchanged, so a failed
planned handler's key may be absent downstream. -/
theorem c3_handler_boundary (mt : String) (f : CardData → RequestParsed → ℚ)
    (state : GraphState) :
    (manager_execute mt f state).next_nodes = ["summary"] ∧
    (manager_execute mt f state).completed_nodes = state.completed_nodes ++ [mt] ∧
    (manager_execute mt f state).manager_results =
      (match state.request with
       | none => state.manager_results
       | some r => insert_assoc state.manager_results mt (manager_result_of mt f r)) ∧
    (manager_execute mt f state).errors =
      (match state.request with
       | none => state.errors ++ [{ node := mt, message := attribute_error_msg }]
       | some _ => state.errors) := by
  rcases hr : state.request with _ | r <;> simp [manager_execute, hr]

/-- C7: the base match score is the weighted sum of the four spec terms —
goal overlap (0.4, normalized), risk/fee band (0.3), 12-month horizon with
signup-bonus text (0.2), empty constraints (0.1) — capped at 1.0, and the
travel handler adds 0.2 for miles/airline/travel text plus 0.1 for
no-foreign-transaction-fee text under the same cap. -/
theorem c7_match_score_weights (card : CardData) (r : RequestParsed) :
    calculate_match_score card r = min (match_score_spec card r) 1 ∧
    travel_calculate_match_score card r
      = min (match_score_spec card r + travel_bonus_spec card) 1 :=
  ⟨calculate_match_score_eq_min_spec card r, travel_score_eq_min_spec card r⟩

/-- C10: the base match-score computation is total with range [0,1]; with
an empty goal list the goal-overlap term contributes exactly 0 (the
division is guarded) and the score reduces to the remaining three terms
under the cap. -/
theorem c10_score_total_bounded (card : CardData) (r : RequestParsed) :
    0 ≤ calculate_match_score card r ∧
    calculate_match_score card r ≤ 1 ∧
    goal_match_count card { r with goals := [] } = 0 ∧
    calculate_match_score card { r with goals := [] } =
      min ((if (r.risk_tolerance = "conservative" ∧ card.annual_fee ≤ 50)
              ∨ (r.risk_tolerance = "standard" ∧ card.annual_fee ≤ 150)
              ∨ r.risk_tolerance = "aggressive" then (3/10 : ℚ) else 0)
        + (if r.time_horizon = "12m" ∧ str_contains (card_str card) "signup_bonus" = true
           then (1/5 : ℚ) else 0)
        + (match r.constraints with | [] => (1/10 : ℚ) | _ :: _ => 0)) 1 := by
  refine ⟨?_, ?_, ?_, ?_⟩
  · rw [calculate_match_score_eq_spec]
    exact match_score_spec_nonneg card r
  · rw [calculate_match_score_eq_spec]
    exact match_score_spec_le_one card r
  · simp [goal_match_count]
  · rw [calculate_match_score_eq_min_spec]
    unfold match_score_spec goal_match_count
    simp

set_option maxHeartbeats 2000000 in
/-- C6: routing is a pure function of the goal tags: each category is in
the plan exactly when its goal group intersects the goals, the plan is a
sublist of the fixed table order (hence ordered and de-duplicated), and an
empty or unmatched goal list yields exactly the single general category. -/
theorem c6_routing_table (r : RequestParsed) :
    (determine_manager_categories r).Sublist manager_names ∧
    ("travel_manager" ∈ determine_manager_categories r ↔
      (["miles", "travel", "airline", "hotel"].any (fun g => r.goals.contains g)) = true) ∧
    ("cashback_manager" ∈ determine_manager_categories r ↔
      (["cashback", "cash", "rewards", "money"].any (fun g => r.goals.contains g)) = true) ∧
    ("business_manager" ∈ determine_manager_categories r ↔
      (["business", "corporate", "expense", "employee"].any (fun g => r.goals.contains g)) = true) ∧
    ("student_manager" ∈ determine_manager_categories r ↔
      (["student", "building_credit", "first", "college"].any (fun g => r.goals.contains g)) = true) ∧
    ("general_manager" ∈ determine_manager_categories r ↔
      ((["miles", "travel", "airline", "hotel"].any (fun g => r.goals.contains g)) = false ∧
       (["cashback", "cash", "rewards", "money"].any (fun g => r.goals.contains g)) = false ∧
       (["business", "corporate", "expense", "employee"].any (fun g => r.goals.contains g)) = false ∧
       (["student", "building_credit", "first", "college"].any (fun g => r.goals.contains g)) = false)) ∧
    (determine_manager_categories r).Nodup ∧
    (r.goals = [] → determine_manager_categories r = ["general_manager"]) := by
  simp only [determine_manager_categories]
  by_cases h1 : (["miles", "travel", "airline", "hotel"].any (fun g => r.goals.contains g)) = true <;>
    by_cases h2 : (["cashback", "cash", "rewards", "money"].any (fun g => r.goals.contains g)) = true <;>
      by_cases h3 : (["business", "corporate", "expense", "employee"].any (fun g => r.goals.contains g)) = true <;>
        by_cases h4 : (["student", "building_credit", "first", "college"].any (fun g => r.goals.contains g)) = true <;>
          simp_all [manager_names] <;> tauto

/-- C6 witness: at the all-goals request the conjunction holds at a
concrete input (the final implication is vacuously discharged). -/
theorem c6_witness :
    (determine_manager_categories req_mc).Sublist manager_names ∧
    ("travel_manager" ∈ determine_manager_categories req_mc ↔
      (["miles", "travel", "airline", "hotel"].any (fun g => req_mc.goals.contains g)) = true) ∧
    ("cashback_manager" ∈ determine_manager_categories req_mc ↔
      (["cashback", "cash", "rewards", "money"].any (fun g => req_mc.goals.contains g)) = true) ∧
    ("business_manager" ∈ determine_manager_categories req_mc ↔
      (["business", "corporate", "expense", "employee"].any (fun g => req_mc.goals.contains g)) = true) ∧
    ("student_manager" ∈ determine_manager_categories req_mc ↔
      (["student", "building_credit", "first", "college"].any (fun g => req_mc.goals.contains g)) = true) ∧
    ("general_manager" ∈ determine_manager_categories req_mc ↔
      ((["miles", "travel", "airline", "hotel"].any (fun g => req_mc.goals.contains g)) = false ∧
       (["cashback", "cash", "rewards", "money"].any (fun g => req_mc.goals.contains g)) = false ∧
       (["business", "corporate", "expense", "employee"].any (fun g => req_mc.goals.contains g)) = false ∧
       (["student", "building_credit", "first", "college"].any (fun g => req_mc.goals.contains g)) = false)) ∧
    (determine_manager_categories req_mc).Nodup ∧
    (req_mc.goals = [] → determine_manager_categories req_mc = ["general_manager"]) :=
  c6_routing_table req_mc

/-- C8: the CategoryResult a handler stores holds the top 3 of the
stable descending ranking: at most 3 entries, non-increasing in match
score, and for every score value the ranked list preserves the catalog
order of the equal-scored candidates (stability). -/
theorem c8_topk_sorted_stable (mt : String) (f : CardData → RequestParsed → ℚ)
    (state : GraphState) (r : RequestParsed) (h : state.request = some r) :
    ∃ mr : ManagerResult,
      lookup_assoc (manager_execute mt f state).manager_results mt = some mr ∧
      mr.recommendations
        = (rank_cards f (search_cards r.goals r.risk_tolerance) r).take 3 ∧
      mr.recommendations.length ≤ 3 ∧
      SortedDescBy (fun c => c.match_score) mr.recommendations ∧
      ∀ q : ℚ,
        (rank_cards f (search_cards r.goals r.risk_tolerance) r).filter
            (fun c => decide (c.match_score = q))
          = ((search_cards r.goals r.risk_tolerance).map (to_recommendation f r)).filter
            (fun c => decide (c.match_score = q)) := by
  refine ⟨manager_result_of mt f r, ?_, rfl, ?_, ?_, ?_⟩
  · rw [manager_execute_results_some mt f h]
    exact lookup_insert_assoc _ _ _
  · exact List.length_take_le _ _
  · have hs : SortedDescBy (fun c => c.match_score)
        (rank_cards f (search_cards r.goals r.risk_tolerance) r) :=
      sort_desc_sorted _ _
    exact List.Pairwise.sublist (List.take_sublist _ _) hs
  · intro q
    exact sort_desc_filter_key _ q _

/-- C8 witness: the theorem instantiated at the scenario C state. -/
theorem c8_witness :
    ∃ mr : ManagerResult,
      lookup_assoc (manager_execute "travel_manager" travel_calculate_match_score
          s_mc).manager_results "travel_manager" = some mr ∧
      mr.recommendations
        = (rank_cards travel_calculate_match_score
            (search_cards req_mc.goals req_mc.risk_tolerance) req_mc).take 3 ∧
      mr.recommendations.length ≤ 3 ∧
      SortedDescBy (fun c => c.match_score) mr.recommendations ∧
      ∀ q : ℚ,
        (rank_cards travel_calculate_match_score
            (search_cards req_mc.goals req_mc.risk_tolerance) req_mc).filter
            (fun c => decide (c.match_score = q))
          = ((search_cards req_mc.goals req_mc.risk_tolerance).map
              (to_recommendation travel_calculate_match_score req_mc)).filter
            (fun c => decide (c.match_score = q)) :=
  c8_topk_sorted_stable "travel_manager" travel_calculate_match_score s_mc req_mc rfl

/-- C9: every FinalAnswer the aggregation stage itself produces has its
final recommendation list sorted non-increasing by aggregate score, and
its confidence equals the mean aggregate score of the first three entries
(of all entries when fewer), or 0 when the list is empty. -/
theorem c9_final_sorted_confidence (state : GraphState) (res : SummaryResult)
    (h0 : state.final_recommendations = none)
    (h : (summary_execute state).final_recommendations = some res) :
    SortedDescBy (fun fr => fr.overall_score) res.final_recommendations ∧
    res.confidence_score =
      (match res.final_recommendations with
       | [] => (0 : ℚ)
       | _ :: _ =>
         ((res.final_recommendations.take 3).map (fun fr => fr.overall_score)).sum
           / (((res.final_recommendations.take 3).map (fun fr => fr.overall_score)).length : ℚ)) := by
  unfold summary_execute at h
  rcases hm : state.manager_results with _ | ⟨m, ms⟩
  · rw [hm] at h
    simp only [Option.some.injEq] at h
    subst h
    constructor
    · simp [SortedDescBy]
    · rfl
  · rw [hm] at h
    simp only at h
    rcases ha : aggregate_manager_results (m :: ms) with _ | ⟨c, cs⟩
    · rw [ha] at h
      simp only [Option.some.injEq] at h
      subst h
      constructor
      · simp [SortedDescBy]
      · rfl
    · rw [ha] at h
      simp only at h
      rcases hr : state.request with _ | r
      · rw [hr] at h
        simp only at h
        rw [h0] at h
        cases h
      · rw [hr] at h
        simp only [Option.some.injEq] at h
        subst h
        constructor
        · exact sort_desc_sorted _ _
        · rcases hf : create_final_recommendations (c :: cs)
              state.manager_results with _ | ⟨fr, frs⟩ <;> simp [hf]

/-- C9 witness: the theorem at a concrete no-managers state, whose
FinalAnswer is the empty result with zero confidence. -/
theorem c9_witness :
    SortedDescBy (fun fr => fr.overall_score) empty_summary_result.final_recommendations ∧
    empty_summary_result.confidence_score =
      (match empty_summary_result.final_recommendations with
       | [] => (0 : ℚ)
       | _ :: _ =>
         ((empty_summary_result.final_recommendations.take 3).map
             (fun fr => fr.overall_score)).sum
           / (((empty_summary_result.final_recommendations.take 3).map
              (fun fr => fr.overall_score)).length : ℚ)) :=
  c9_final_sorted_confidence (create_initial_state "hello") empty_summary_result rfl rfl

/-- C4 counterexample: on empty input the extractor records the fatal
error and re-raises, so the run aborts: the error-fallback stage is never
reached and no FinalAnswer exists; moreover even invoking the error
handler on the aborted state only appends its own critical storage error
(its result, fallbacks included, is never stored), and the summary stage
then produces a FinalAnswer with zero candidates — never the single ≈0.6
fallback candidate the claim requires. -/
theorem c4_counterexample :
    run_raised (run_pipeline extract_stub (create_initial_state "")) = true ∧
    "error_handler" ∉
      (run_result_state (run_pipeline extract_stub (create_initial_state ""))).completed_nodes ∧
    (run_result_state (run_pipeline extract_stub
        (create_initial_state ""))).final_recommendations.isNone = true ∧
    (run_result_state (run_pipeline extract_stub
        (create_initial_state ""))).errors.map (fun e => e.node) = ["extractor"] ∧
    (error_handler_execute (run_result_state (run_pipeline extract_stub
        (create_initial_state "")))).errors.map (fun e => e.node)
      = ["extractor", "error_handler"] ∧
    ((summary_execute (error_handler_execute (run_result_state (run_pipeline extract_stub
        (create_initial_state ""))))).final_recommendations.map
      (fun res => res.final_recommendations.length)) = some 0 := by
  with_unfolding_all decide

/-- C4 amended: for every run with empty raw text the extraction stage
appends a fatal input error record and re-raises, aborting the pipeline
with no FinalAnswer; the error-fallback stage itself always fails to
store its result (the strict state model has no error_handling field), so
it only appends a critical error record, sets no follow-up nodes, and
leaves the result map, the final answer and the parsed request untouched;
the fallback candidates it builds internally carry match score 0.6 but
are discarded with the rest of the result. -/
theorem c4_empty_input (f : String → Consent → String → RequestParsed)
    (state : GraphState) (h : state.user_query = "") :
    run_pipeline f state = Except.error
      { state with
        current_node := some "extractor",
        errors := state.errors ++ [{ node := "extractor", message := "No user query provided" }],
        next_nodes := ["error_handler"] } ∧
    (error_handler_execute state).errors = state.errors ++
      [{ node := "error_handler",
         message := "Error handler failed: " ++ no_field_error "error_handling" }] ∧
    (error_handler_execute state).manager_results = state.manager_results ∧
    (error_handler_execute state).final_recommendations = state.final_recommendations ∧
    (error_handler_execute state).request = state.request ∧
    (error_handler_execute state).next_nodes = [] ∧
    ∀ r : RequestParsed,
      (generate_fallback_recommendations r).map (fun c => c.match_score) = [3/5] := by
  refine ⟨?_, rfl, rfl, rfl, rfl, rfl, ?_⟩
  · simp [run_pipeline, extractor_node, h]
  · intro r
    simp [generate_fallback_recommendations]

/-- C4 witness: the amended theorem at the concrete empty-input state. -/
theorem c4_witness :
    run_pipeline extract_stub (create_initial_state "") = Except.error
      { create_initial_state "" with
        current_node := some "extractor",
        errors := (create_initial_state "").errors
          ++ [{ node := "extractor", message := "No user query provided" }],
        next_nodes := ["error_handler"] } ∧
    (error_handler_execute (create_initial_state "")).errors
      = (create_initial_state "").errors ++
        [{ node := "error_handler",
           message := "Error handler failed: " ++ no_field_error "error_handling" }] ∧
    (error_handler_execute (create_initial_state "")).manager_results
      = (create_initial_state "").manager_results ∧
    (error_handler_execute (create_initial_state "")).final_recommendations
      = (create_initial_state "").final_recommendations ∧
    (error_handler_execute (create_initial_state "")).request
      = (create_initial_state "").request ∧
    (error_handler_execute (create_initial_state "")).next_nodes = [] ∧
    ∀ r : RequestParsed,
      (generate_fallback_recommendations r).map (fun c => c.match_score) = [3/5] :=
  c4_empty_input extract_stub (create_initial_state "") rfl

/-- C5 counterexample: for goals miles and cashback the plan is
travel then cashback, yet only the travel handler runs before
aggregation: the cashback handler never executes and the aggregation
stage observes a result map with only the travel key. -/
theorem c5_counterexample :
    determine_manager_categories req_mc = ["travel_manager", "cashback_manager"] ∧
    (run_from_router s_mc).completed_nodes =
      ["router", "travel_manager", "online_search", "policy_validation", "summary"] ∧
    "cashback_manager" ∉ (run_from_router s_mc).completed_nodes ∧
    (run_from_router s_mc).manager_results.map Prod.fst = ["travel_manager"] := by
  have hdet : determine_manager_categories req_mc = ["travel_manager", "cashback_manager"] := by
    with_unfolding_all decide
  have h1 : s_mc.errors = [] := rfl
  have h2 : s_mc.request = some req_mc := rfl
  obtain ⟨ha, hb, hc⟩ := run_from_router_effects h1 h2
  rw [hdet] at hb hc
  refine ⟨hdet, ?_, ?_, ?_⟩
  · rw [hb]
    with_unfolding_all decide
  · rw [hb]
    with_unfolding_all decide
  · rw [hc]
    with_unfolding_all decide

/-- C5 amended: the router's conditional edge selects only the FIRST
element of the fan-out plan, so exactly one planned handler runs before
aggregation: the completed stages between routing and aggregation are the
chosen manager followed by the two enrichment stages, and the aggregation
stage observes the result map extended with at most that single manager's
key. -/
theorem c5_first_manager_only (state : GraphState) (r : RequestParsed)
    (h1 : state.errors = []) (h2 : state.request = some r) :
    should_continue_to_managers (router_node state)
        = (determine_manager_categories r).headD "general_manager" ∧
    (run_from_router state).completed_nodes =
      state.completed_nodes ++ ["router",
        (determine_manager_categories r).headD "general_manager",
        "online_search", "policy_validation", "summary"] ∧
    (run_from_router state).manager_results.map Prod.fst =
      (if (determine_manager_categories r).headD "general_manager"
            ∈ state.manager_results.map Prod.fst
       then state.manager_results.map Prod.fst
       else state.manager_results.map Prod.fst
         ++ [(determine_manager_categories r).headD "general_manager"]) :=
  run_from_router_effects h1 h2

/-- C5 witness: the amended theorem at the scenario C state. -/
theorem c5_witness :
    should_continue_to_managers (router_node s_mc)
        = (determine_manager_categories req_mc).headD "general_manager" ∧
    (run_from_router s_mc).completed_nodes =
      s_mc.completed_nodes ++ ["router",
        (determine_manager_categories req_mc).headD "general_manager",
        "online_search", "policy_validation", "summary"] ∧
    (run_from_router s_mc).manager_results.map Prod.fst =
      (if (determine_manager_categories req_mc).headD "general_manager"
            ∈ s_mc.manager_results.map Prod.fst
       then s_mc.manager_results.map Prod.fst
       else s_mc.manager_results.map Prod.fst
         ++ [(determine_manager_categories req_mc).headD "general_manager"]) :=
  c5_first_manager_only s_mc req_mc rfl rfl
